import Mathlib

/-!
Shallow embedding of `src/hooks/useSubscriptionTier.tsx`.

The hook `useSubscriptionTier` resolves a user's subscription tier by a
four-stage profile lookup cascade followed by a subscription query against
an external backend.  The backend's responses to the five possible network
calls are modelled as an explicit `Backend` record supplied as input: each
field holds what the corresponding supabase call would return (`data` and
`error` fields, as in the PostgREST client).  The subscriptions table is
modelled as a list of rows, and the `order by created_at desc limit 1`
query is modelled by sorting with `List.insertionSort` on descending
`created_at` and taking one row.

Every mutation of the local `diagnosticData.profileLookupStages` array is
additionally recorded as a snapshot in `stageHistory`, and every awaited
backend call is recorded in `queries`, so that claims about the diagnostic
trace growing monotonically and about which network calls are issued can
be stated.
-/

namespace SubTier

/-- The user identity (`User` from supabase-js): `id` and `email`. -/
structure User where
  id : String
  email : String
deriving Repr, DecidableEq

/-- An error object as returned by the PostgREST client
(`message`, `details`, `hint`, `code`). -/
structure QueryError where
  message : String
  details : String
  hint : String
  code : String
deriving Repr, DecidableEq

/-- A response from a supabase call: a `data` field and an `error` field. -/
structure Resp (α : Type) where
  data : Option α
  error : Option QueryError
deriving Repr, DecidableEq

/-- A row of the `subscriptions` table as used by the hook:
`login_id`, `tier`, `created_at` (timestamp modelled as `Nat`). -/
structure SubRow where
  login_id : String
  tier : String
  created_at : Nat
deriving Repr, DecidableEq

/-- The external backend, as observed by one resolution run: the response
of each profile-lookup call, the contents of the `subscriptions` table and
an optional error for the subscription query. -/
structure Backend where
  /-- response of `from('profiles').select('id').eq('email', …).single()` -/
  exactMatchResp : Resp String
  /-- response of `from('profiles').select('id').ilike('email', …)` -/
  ciMatchResp : Resp (List String)
  /-- response of `rpc('get_auth_user_by_email', …)` -/
  rpcResp : Resp String
  /-- response of `from('profiles').insert([…]).select('id').single()` -/
  insertResp : Resp String
  /-- rows of the `subscriptions` table -/
  subscriptions : List SubRow
  /-- error of the subscription query, if any -/
  subQueryError : Option QueryError
deriving Repr, DecidableEq

/-- The diagnostic object `DiagnosticData` of the hook. -/
structure DiagnosticData where
  profileLookupStages : List String
  finalTier : Option String := none
  subscriptionError : Option QueryError := none
  profileError : Option String := none
deriving Repr, DecidableEq

/-- The hook's state: `tier`, `loading`, `diagnostics`. -/
structure HookState where
  tier : String
  loading : Bool
  diagnostics : DiagnosticData
deriving Repr, DecidableEq

/-- The five backend calls the resolution can issue. -/
inductive Query where
  | exactMatch
  | ciMatch
  | rpc
  | insertProfile
  | subscription
deriving Repr, DecidableEq

/-- Everything one run of `resolveSubscriptionTier` produces:
the argument of `setTier` if it was called, the argument of
`setDiagnostics`, the backend calls issued, and the successive snapshots
of `diagnosticData.profileLookupStages` (one entry per mutation). -/
structure ResolveResult where
  tierSet : Option String
  diagnostics : DiagnosticData
  queries : List Query
  stageHistory : List (List String)
deriving Repr, DecidableEq

/-- Stage labels, exactly as pushed by the source. -/
def stages1 : List String := ["Stage 1: Exact email match"]

def stages12 : List String := stages1 ++ ["Stage 2: Case-insensitive match"]

def stages123 : List String := stages12 ++ ["Stage 3: RPC lookup"]

def stages1234 : List String := stages123 ++ ["Stage 4: Emergency profile creation"]

def stages1234ok : List String := stages1234 ++ ["✅ Emergency profile created successfully"]

def stages1234fail : List String := stages1234 ++ ["❌ FATAL: Profile creation failed"]

/-- Stage 2's acceptance test: `if (ciMatchProfiles?.length === 1)
exactMatchProfile = ciMatchProfiles[0]` — the data is used only when it is
a list of exactly one row. -/
def ciProfile : Option (List String) → Option String
  | some l => if l.length = 1 then l.head? else none
  | none => none

/-- The descending `created_at` order used by the subscription query. -/
def rel (a b : SubRow) : Prop := b.created_at ≤ a.created_at

instance : DecidableRel rel := fun a b => Nat.decLe b.created_at a.created_at

instance : IsTotal SubRow rel := ⟨fun a b => Nat.le_total b.created_at a.created_at⟩

instance : IsTrans SubRow rel := ⟨fun _a _b _c hab hbc => Nat.le_trans hbc hab⟩

/-- The subscription query
`from('subscriptions').select('tier').eq('login_id', user.id)
.order('created_at', ascending: false).limit(1)`:
filter the table by `login_id`, sort by `created_at` descending, take one
row. -/
def subscriptionQuery (table : List SubRow) (loginId : String) : List SubRow :=
  ((table.filter fun r => r.login_id == loginId).insertionSort rel).take 1

/-- Line 119: `const activeTier = subscriptionData?.[0]?.tier || 'free'`.
JavaScript `||` falls back on every falsy value, so a missing row and an
empty-string `tier` field both yield `"free"`. -/
def extractTier : Option SubRow → String
  | some r => if r.tier = "" then "free" else r.tier
  | none => "free"

/-- The subscription-lookup phase (lines 95–123), entered with the stage
list, stage history and query list accumulated by the profile cascade.
On a query error the error payload is recorded and the error is thrown;
the thrown value is the PostgREST error object, which is not an
`instanceof Error`, so the catch block records `profileError` as
`"Unknown error"` and `setTier` is never called.  On success the tier is
extracted from the single returned row, `finalTier` is recorded and
`setTier` is called. -/
def subscriptionLookup (user : User) (b : Backend) (st : List String)
    (hist : List (List String)) (qs : List Query) : ResolveResult :=
  let qs2 := qs ++ [Query.subscription]
  match b.subQueryError with
  | some e =>
    { tierSet := none
      diagnostics :=
        { profileLookupStages := st
          subscriptionError := some e
          profileError := some "Unknown error" }
      queries := qs2
      stageHistory := hist }
  | none =>
    let activeTier := extractTier (subscriptionQuery b.subscriptions user.id).head?
    { tierSet := some activeTier
      diagnostics :=
        { profileLookupStages := st
          finalTier := some activeTier }
      queries := qs2
      stageHistory := hist }

/-- The resolution routine `resolveSubscriptionTier` (lines 24–133): the
four-stage profile lookup cascade, then the subscription lookup.

Stage 1 reads only the `data` field of the exact-match response; stage 2
runs only when stage 1 found nothing and accepts only a singleton result;
stage 3 runs only when stages 1–2 found nothing and reads only the `data`
field of the RPC response; stage 4 runs only when stages 1–3 found
nothing: it inserts a profile, and an insert error is fatal — the inner
catch pushes the FATAL stage label and rethrows, the outer catch records
the thrown `Error`'s message (`Profile creation blocked by RLS: …`) as
`profileError`, and the subscription query is never issued. -/
def resolveSubscriptionTier (user : User) (b : Backend) : ResolveResult :=
  match b.exactMatchResp.data with
  | some _p =>
    subscriptionLookup user b stages1 [stages1] [Query.exactMatch]
  | none =>
    match ciProfile b.ciMatchResp.data with
    | some _p =>
      subscriptionLookup user b stages12 [stages1, stages12]
        [Query.exactMatch, Query.ciMatch]
    | none =>
      match b.rpcResp.data with
      | some _rid =>
        subscriptionLookup user b stages123 [stages1, stages12, stages123]
          [Query.exactMatch, Query.ciMatch, Query.rpc]
      | none =>
        match b.insertResp.error with
        | some e =>
          { tierSet := none
            diagnostics :=
              { profileLookupStages := stages1234fail
                profileError :=
                  some ("Profile creation blocked by RLS: " ++ e.message) }
            queries := [Query.exactMatch, Query.ciMatch, Query.rpc,
              Query.insertProfile]
            stageHistory := [stages1, stages12, stages123, stages1234,
              stages1234fail] }
        | none =>
          subscriptionLookup user b stages1234ok
            [stages1, stages12, stages123, stages1234, stages1234ok]
            [Query.exactMatch, Query.ciMatch, Query.rpc, Query.insertProfile]

/-- The effect body (lines 18–136): when the observed identity is absent,
`setLoading(false)` and return — tier and diagnostics are untouched and no
backend call is made.  Otherwise run the resolution; `setTier` fires only
on the success path, `setDiagnostics` fires on both paths, and the
`finally` block clears `loading` unconditionally.  Returns the state after
the run together with the list of backend calls issued. -/
def effectStep (user : Option User) (b : Backend) (s : HookState) :
    HookState × List Query :=
  match user with
  | none => ({ s with loading := false }, [])
  | some u =>
    let r := resolveSubscriptionTier u b
    ({ tier := r.tierSet.getD s.tier
       loading := false
       diagnostics := r.diagnostics }, r.queries)

/-- The hook's initial state:
`tier = 'free'`, `loading = true`, empty diagnostics. -/
def initialState : HookState :=
  { tier := "free", loading := true
    diagnostics := { profileLookupStages := [] } }

end SubTier

namespace SubTier

/-! ### Helper lemmas shared by several claims -/

/-- The row returned by the subscription query belongs to the table, has
the queried `login_id`, and carries the maximal `created_at` among all
rows with that `login_id`. -/
theorem subscriptionQuery_head_latest (table : List SubRow) (lid : String)
    (r : SubRow) (h : (subscriptionQuery table lid).head? = some r) :
    r ∈ table ∧ r.login_id = lid ∧
      ∀ r2 ∈ table, r2.login_id = lid → r2.created_at ≤ r.created_at := by
  unfold subscriptionQuery at h
  have hperm := List.perm_insertionSort rel (table.filter fun r => r.login_id == lid)
  have hsorted := List.sorted_insertionSort rel (table.filter fun r => r.login_id == lid)
  rcases hs : (table.filter fun r => r.login_id == lid).insertionSort rel with _ | ⟨r0, rest⟩
  · rw [hs] at h; simp at h
  · rw [hs] at h hperm hsorted
    simp [List.take] at h
    have hrl : r0 ∈ table.filter fun r => r.login_id == lid :=
      hperm.mem_iff.mp (List.mem_cons_self r0 rest)
    have hrt : r0 ∈ table ∧ r0.login_id = lid := by
      have := List.mem_filter.mp hrl
      simp at this
      exact this
    rw [← h]
    refine ⟨hrt.1, hrt.2, ?_⟩
    intro r2 hr2 hlid
    have hr2l : r2 ∈ table.filter fun r => r.login_id == lid :=
      List.mem_filter.mpr ⟨hr2, by simp [hlid]⟩
    have hmem0 : r2 ∈ r0 :: rest := hperm.mem_iff.mpr hr2l
    rcases List.mem_cons.mp hmem0 with heq | hmem
    · subst heq; exact le_refl _
    · exact (List.pairwise_cons.mp hsorted).1 r2 hmem

/-- Either the resolution aborts without calling `setTier`, or it calls
`setTier` with exactly the value extracted from the subscription query. -/
theorem tierSet_characterization (u : User) (b : Backend) :
    (resolveSubscriptionTier u b).tierSet = none
    ∨ (resolveSubscriptionTier u b).tierSet
        = some (extractTier (subscriptionQuery b.subscriptions u.id).head?) := by
  unfold resolveSubscriptionTier subscriptionLookup
  cases b.exactMatchResp.data <;> cases ciProfile b.ciMatchResp.data <;>
    cases b.rpcResp.data <;> cases b.insertResp.error <;>
    cases b.subQueryError <;> simp

/-- When the resolution reaches the subscription query and the query
succeeds, `setTier` and `finalTier` both receive the extracted tier. -/
theorem reaches_subscription_tier (u : User) (b : Backend)
    (hq : Query.subscription ∈ (resolveSubscriptionTier u b).queries)
    (he : b.subQueryError = none) :
    (resolveSubscriptionTier u b).tierSet
      = some (extractTier (subscriptionQuery b.subscriptions u.id).head?)
    ∧ (resolveSubscriptionTier u b).diagnostics.finalTier
      = some (extractTier (subscriptionQuery b.subscriptions u.id).head?) := by
  unfold resolveSubscriptionTier subscriptionLookup at *
  cases h1 : b.exactMatchResp.data <;> cases h2 : ciProfile b.ciMatchResp.data <;>
    cases h3 : b.rpcResp.data <;> cases h4 : b.insertResp.error <;>
    simp [h1, h2, h3, h4, he] at hq ⊢

end SubTier

namespace SubTier

/-! ### Concrete inputs used by counterexamples and witnesses -/

/-- A user identity used by the concrete examples. -/
def sampleUser : User := { id := "u1", email := "a@b.c" }

/-- A backend whose lookups all return nothing, with an empty
subscriptions table and no errors. -/
def emptyBackend : Backend :=
  { exactMatchResp := { data := none, error := none }
    ciMatchResp := { data := none, error := none }
    rpcResp := { data := none, error := none }
    insertResp := { data := none, error := none }
    subscriptions := []
    subQueryError := none }

/-- A backend where the exact email match succeeds and the only
subscription row carries an empty-string tier field. -/
def emptyTierBackend : Backend :=
  { emptyBackend with
    exactMatchResp := { data := some "p1", error := none }
    subscriptions := [{ login_id := "u1", tier := "", created_at := 5 }] }

/-- A backend where the exact email match succeeds and the newest of two
subscription rows has tier "pro". -/
def proTierBackend : Backend :=
  { emptyBackend with
    exactMatchResp := { data := some "p1", error := none }
    subscriptions := [{ login_id := "u1", tier := "basic", created_at := 1 },
      { login_id := "u1", tier := "pro", created_at := 3 }] }

/-- The error with which the stage-4 insert is rejected in the examples. -/
def deniedError : QueryError :=
  { message := "denied", details := "", hint := "", code := "42501" }

/-- A backend where stages 1–3 find nothing (stage 2 returns two rows,
an ambiguous match) and the stage-4 insert is rejected. -/
def insertFailBackend : Backend :=
  { emptyBackend with
    ciMatchResp := { data := some ["p1", "p2"], error := none }
    insertResp := { data := none, error := some deniedError } }

/-- A backend where the exact match succeeds but the subscription query
itself errors. -/
def subErrBackend : Backend :=
  { emptyBackend with
    exactMatchResp := { data := some "p1", error := none }
    subQueryError := some { message := "boom", details := "", hint := "", code := "500" } }

/-- A backend where the exact email match succeeds and the newest of two
subscription rows has an empty-string tier while an older row has tier
"pro". -/
def staleProBackend : Backend :=
  { emptyBackend with
    exactMatchResp := { data := some "p1", error := none }
    subscriptions := [{ login_id := "u1", tier := "pro", created_at := 1 },
      { login_id := "u1", tier := "", created_at := 9 }] }

/-- A hook state as left by an earlier successful resolution that set the
tier to "premium". -/
def premiumState : HookState :=
  { tier := "premium", loading := false
    diagnostics := { profileLookupStages := ["Stage 1: Exact email match"]
                     finalTier := some "premium" } }

end SubTier

namespace SubTier

/-! ### C1 — tier from the newest subscription row -/

/-- C1 counterexample: the resolution reaches the subscription query and
the row with the latest creation timestamp has the tier field `""`, yet
the resulting tier is `"free"`, not that row's tier field — line 119's
JavaScript `||` treats the empty string as falsy. -/
theorem c1_counterexample :
    Query.subscription ∈ (resolveSubscriptionTier sampleUser emptyTierBackend).queries
    ∧ (subscriptionQuery emptyTierBackend.subscriptions sampleUser.id).head?
        = some { login_id := "u1", tier := "", created_at := 5 }
    ∧ (resolveSubscriptionTier sampleUser emptyTierBackend).tierSet = some "free"
    ∧ ("free" : String) ≠ "" := by decide

/-- C1 (amended): for every resolution that reaches the subscription
query with the query succeeding, when no subscription row matches the
resulting tier is `"free"` and `finalTier` records `"free"`; when a row
is returned it belongs to the table, matches the identity's id, carries
the maximal creation timestamp among the identity's rows, and the
resulting tier is that row's tier field when the field is non-empty and
`"free"` when the field is the empty string (truthiness fallback). -/
theorem c1_latest_subscription_tier (u : User) (b : Backend)
    (hq : Query.subscription ∈ (resolveSubscriptionTier u b).queries)
    (he : b.subQueryError = none) :
    ((subscriptionQuery b.subscriptions u.id).head? = none →
        (resolveSubscriptionTier u b).tierSet = some "free"
        ∧ (resolveSubscriptionTier u b).diagnostics.finalTier = some "free")
    ∧ ∀ r, (subscriptionQuery b.subscriptions u.id).head? = some r →
        (resolveSubscriptionTier u b).tierSet
            = some (if r.tier = "" then "free" else r.tier)
        ∧ r ∈ b.subscriptions ∧ r.login_id = u.id
        ∧ ∀ r2 ∈ b.subscriptions, r2.login_id = u.id →
            r2.created_at ≤ r.created_at := by
  obtain ⟨ht, hf⟩ := reaches_subscription_tier u b hq he
  constructor
  · intro hn
    rw [hn] at ht hf
    exact ⟨ht, hf⟩
  · intro r hr
    have hm := subscriptionQuery_head_latest b.subscriptions u.id r hr
    rw [hr] at ht
    exact ⟨by simpa [extractTier] using ht, hm.1, hm.2.1, hm.2.2⟩

/-- C1 witness: the amended theorem applied to a backend whose newest
subscription row has tier "pro". -/
theorem c1_latest_subscription_tier_witness :
    ((subscriptionQuery proTierBackend.subscriptions sampleUser.id).head? = none →
        (resolveSubscriptionTier sampleUser proTierBackend).tierSet = some "free"
        ∧ (resolveSubscriptionTier sampleUser proTierBackend).diagnostics.finalTier
            = some "free")
    ∧ ∀ r, (subscriptionQuery proTierBackend.subscriptions sampleUser.id).head? = some r →
        (resolveSubscriptionTier sampleUser proTierBackend).tierSet
            = some (if r.tier = "" then "free" else r.tier)
        ∧ r ∈ proTierBackend.subscriptions ∧ r.login_id = sampleUser.id
        ∧ ∀ r2 ∈ proTierBackend.subscriptions, r2.login_id = sampleUser.id →
            r2.created_at ≤ r.created_at :=
  c1_latest_subscription_tier sampleUser proTierBackend (by decide) rfl

end SubTier

namespace SubTier

/-! ### C2 — stage-4 insert failure is fatal -/

/-- C2: when stages 1–3 find no profile and the stage-4 insert fails, the
subscription query is never issued, the FATAL entry is recorded in the
stage list together with a textual `profileError`, `setTier` is never
called — so a hook whose tier is `"free"` keeps tier `"free"` — and the
insert is issued exactly once (no retry). -/
theorem c2_insert_failure_fatal (u : User) (b : Backend) (s : HookState)
    (e : QueryError)
    (h1 : b.exactMatchResp.data = none)
    (h2 : ciProfile b.ciMatchResp.data = none)
    (h3 : b.rpcResp.data = none)
    (h4 : b.insertResp.error = some e)
    (hs : s.tier = "free") :
    Query.subscription ∉ (resolveSubscriptionTier u b).queries
    ∧ "❌ FATAL: Profile creation failed"
        ∈ (resolveSubscriptionTier u b).diagnostics.profileLookupStages
    ∧ (resolveSubscriptionTier u b).diagnostics.profileError
        = some ("Profile creation blocked by RLS: " ++ e.message)
    ∧ (resolveSubscriptionTier u b).tierSet = none
    ∧ (effectStep (some u) b s).1.tier = "free"
    ∧ (resolveSubscriptionTier u b).queries.count Query.insertProfile = 1 := by
  have hres : resolveSubscriptionTier u b =
      { tierSet := none
        diagnostics :=
          { profileLookupStages := stages1234fail
            profileError := some ("Profile creation blocked by RLS: " ++ e.message) }
        queries := [Query.exactMatch, Query.ciMatch, Query.rpc, Query.insertProfile]
        stageHistory := [stages1, stages12, stages123, stages1234, stages1234fail] } := by
    unfold resolveSubscriptionTier
    simp only [h1, h2, h3, h4]
  refine ⟨?_, ?_, ?_, ?_, ?_, ?_⟩
  · rw [hres]; simp
  · rw [hres]; simp [stages1234fail, stages1234, stages123, stages12, stages1]
  · rw [hres]
  · rw [hres]
  · simp [effectStep, hres, hs]
  · rw [hres]; simp

/-- C2 witness: the theorem applied to a backend where stage 2 returns an
ambiguous pair, stages 1 and 3 return nothing, and the insert is denied,
starting from the hook's initial state. -/
theorem c2_insert_failure_fatal_witness :
    Query.subscription ∉ (resolveSubscriptionTier sampleUser insertFailBackend).queries
    ∧ "❌ FATAL: Profile creation failed"
        ∈ (resolveSubscriptionTier sampleUser insertFailBackend).diagnostics.profileLookupStages
    ∧ (resolveSubscriptionTier sampleUser insertFailBackend).diagnostics.profileError
        = some ("Profile creation blocked by RLS: " ++ deniedError.message)
    ∧ (resolveSubscriptionTier sampleUser insertFailBackend).tierSet = none
    ∧ (effectStep (some sampleUser) insertFailBackend initialState).1.tier = "free"
    ∧ (resolveSubscriptionTier sampleUser insertFailBackend).queries.count
        Query.insertProfile = 1 :=
  c2_insert_failure_fatal sampleUser insertFailBackend initialState deniedError
    rfl (by decide) rfl rfl rfl

/-! ### C3 — exact match short-circuits the cascade -/

/-- C3 counterexample: the exact email match returns a profile, only the
stage-1 label is recorded, the newest subscription row has the tier field
`""` — yet the resulting tier is `"free"`, not that row's tier field, so
"the tier is taken from the newest subscription row" fails as stated. -/
theorem c3_counterexample :
    (resolveSubscriptionTier sampleUser staleProBackend).diagnostics.profileLookupStages
        = ["Stage 1: Exact email match"]
    ∧ (subscriptionQuery staleProBackend.subscriptions sampleUser.id).head?
        = some { login_id := "u1", tier := "", created_at := 9 }
    ∧ (resolveSubscriptionTier sampleUser staleProBackend).tierSet = some "free"
    ∧ some ("free" : String) ≠ some "" := by decide

/-- C3 (amended): when the exact case-sensitive email match returns a
profile, only the stage-1 label is recorded in the published stage list
and stages 2, 3 and 4 are never issued; when the subscription query then
succeeds, the tier is computed from the newest subscription row by the
truthiness extraction of line 119 (the row's tier field when non-empty,
otherwise `"free"`). -/
theorem c3_exact_match_short_circuit (u : User) (b : Backend) (p : String)
    (h : b.exactMatchResp.data = some p) :
    (resolveSubscriptionTier u b).diagnostics.profileLookupStages
        = ["Stage 1: Exact email match"]
    ∧ Query.ciMatch ∉ (resolveSubscriptionTier u b).queries
    ∧ Query.rpc ∉ (resolveSubscriptionTier u b).queries
    ∧ Query.insertProfile ∉ (resolveSubscriptionTier u b).queries
    ∧ (b.subQueryError = none →
        (resolveSubscriptionTier u b).tierSet
          = some (extractTier (subscriptionQuery b.subscriptions u.id).head?)) := by
  unfold resolveSubscriptionTier subscriptionLookup
  rw [h]
  cases he : b.subQueryError <;>
    simp [he, stages1]

/-- C3 witness: the amended theorem applied to a backend whose exact
match returns profile "p1". -/
theorem c3_exact_match_short_circuit_witness :
    (resolveSubscriptionTier sampleUser proTierBackend).diagnostics.profileLookupStages
        = ["Stage 1: Exact email match"]
    ∧ Query.ciMatch ∉ (resolveSubscriptionTier sampleUser proTierBackend).queries
    ∧ Query.rpc ∉ (resolveSubscriptionTier sampleUser proTierBackend).queries
    ∧ Query.insertProfile ∉ (resolveSubscriptionTier sampleUser proTierBackend).queries
    ∧ (proTierBackend.subQueryError = none →
        (resolveSubscriptionTier sampleUser proTierBackend).tierSet
          = some (extractTier
              (subscriptionQuery proTierBackend.subscriptions sampleUser.id).head?)) :=
  c3_exact_match_short_circuit sampleUser proTierBackend "p1" rfl

end SubTier

namespace SubTier

/-! ### C4 — ambiguous case-insensitive match is a silent non-match -/

/-- C4: when the exact match finds no profile and the case-insensitive
match returns two or more rows, the whole run is identical to a run in
which the case-insensitive match returned no data at all — the ambiguity
is silent, nothing is recorded about it — and resolution falls through to
the RPC lookup stage. -/
theorem c4_ambiguous_ci_no_match (u : User) (b : Backend) (l : List String)
    (h1 : b.exactMatchResp.data = none)
    (h2 : b.ciMatchResp.data = some l)
    (h3 : 2 ≤ l.length) :
    resolveSubscriptionTier u b
      = resolveSubscriptionTier u
          { b with ciMatchResp := { data := none, error := b.ciMatchResp.error } }
    ∧ Query.rpc ∈ (resolveSubscriptionTier u b).queries
    ∧ "Stage 3: RPC lookup"
        ∈ (resolveSubscriptionTier u b).diagnostics.profileLookupStages := by
  have hlen : l.length ≠ 1 := by omega
  have hcip : ciProfile b.ciMatchResp.data = none := by
    simp [ciProfile, h2, hlen]
  refine ⟨?_, ?_⟩
  · unfold resolveSubscriptionTier
    rw [h1, hcip]
    exact rfl
  · unfold resolveSubscriptionTier subscriptionLookup
    cases h3r : b.rpcResp.data <;> cases h4r : b.insertResp.error <;>
      cases h5r : b.subQueryError <;>
      simp [h1, hcip, h3r, h4r, h5r, stages1234fail, stages1234ok, stages1234,
        stages123, stages12, stages1]

/-- C4 witness: the theorem applied to a backend whose case-insensitive
match returns the ambiguous pair of profiles. -/
theorem c4_ambiguous_ci_no_match_witness :
    (resolveSubscriptionTier sampleUser insertFailBackend
      = resolveSubscriptionTier sampleUser
          { insertFailBackend with
            ciMatchResp := { data := none, error := insertFailBackend.ciMatchResp.error } })
    ∧ Query.rpc ∈ (resolveSubscriptionTier sampleUser insertFailBackend).queries
    ∧ "Stage 3: RPC lookup"
        ∈ (resolveSubscriptionTier sampleUser insertFailBackend).diagnostics.profileLookupStages :=
  c4_ambiguous_ci_no_match sampleUser insertFailBackend ["p1", "p2"]
    rfl rfl (by decide)

/-! ### C5 — absent identity -/

/-- C5 counterexample: after a resolution left the hook at tier
"premium", the identity becoming absent does not discard the previous
result — no query is made and loading is cleared, but the tier stays
"premium" (not "free") and the previous diagnostics are kept. -/
theorem c5_counterexample :
    (effectStep none emptyBackend premiumState).2 = []
    ∧ (effectStep none emptyBackend premiumState).1.tier = "premium"
    ∧ (effectStep none emptyBackend premiumState).1.tier ≠ "free"
    ∧ (effectStep none emptyBackend premiumState).1.diagnostics
        = premiumState.diagnostics := by decide

/-- C5 (amended): when the observed identity is absent the effect makes
no backend call and only clears `loading`; the tier and the diagnostics
retain their previous values — so from the default state the tier is
`"free"`, but an earlier result is kept, not discarded. -/
theorem c5_absent_identity (b : Backend) (s : HookState) :
    effectStep none b s = ({ s with loading := false }, []) := rfl

/-! ### C6 — subscription query error aborts the resolution -/

/-- C6: when the subscription query itself returns an error, the
resolution aborts — `setTier` is never called, so the hook's tier stays
at whatever value it last held — and the error payload is recorded as
`subscriptionError` in the published diagnostics. -/
theorem c6_subscription_error_aborts (u : User) (b : Backend) (s : HookState)
    (e : QueryError)
    (he : b.subQueryError = some e)
    (hq : Query.subscription ∈ (resolveSubscriptionTier u b).queries) :
    (resolveSubscriptionTier u b).tierSet = none
    ∧ (resolveSubscriptionTier u b).diagnostics.subscriptionError = some e
    ∧ (effectStep (some u) b s).1.tier = s.tier := by
  have hmain : (resolveSubscriptionTier u b).tierSet = none
      ∧ (resolveSubscriptionTier u b).diagnostics.subscriptionError = some e := by
    unfold resolveSubscriptionTier subscriptionLookup at *
    cases h1 : b.exactMatchResp.data <;> cases h2 : ciProfile b.ciMatchResp.data <;>
      cases h3 : b.rpcResp.data <;> cases h4 : b.insertResp.error <;>
      simp [h1, h2, h3, h4, he] at hq ⊢
  refine ⟨hmain.1, hmain.2, ?_⟩
  simp [effectStep, hmain.1]

/-- C6 witness: the theorem applied to a backend whose subscription query
errors, starting from a state whose tier is "premium". -/
theorem c6_subscription_error_aborts_witness :
    (resolveSubscriptionTier sampleUser subErrBackend).tierSet = none
    ∧ (resolveSubscriptionTier sampleUser subErrBackend).diagnostics.subscriptionError
        = some { message := "boom", details := "", hint := "", code := "500" }
    ∧ (effectStep (some sampleUser) subErrBackend premiumState).1.tier
        = premiumState.tier :=
  c6_subscription_error_aborts sampleUser subErrBackend premiumState
    { message := "boom", details := "", hint := "", code := "500" } rfl (by decide)

/-! ### C7 — tier values are backend tiers or the literal "free" -/

/-- C7: one effect step never sets the tier to anything other than its
previous value, the literal `"free"`, or a tier value present in the
backend's subscriptions table — no other string can ever be produced. -/
theorem c7_tier_invariant (u : Option User) (b : Backend) (s : HookState) :
    (effectStep u b s).1.tier = s.tier
    ∨ (effectStep u b s).1.tier = "free"
    ∨ (effectStep u b s).1.tier ∈ b.subscriptions.map SubRow.tier := by
  cases u with
  | none => left; rfl
  | some u =>
    rcases tierSet_characterization u b with h | h
    · left; simp [effectStep, h]
    · rcases hh : (subscriptionQuery b.subscriptions u.id).head? with _ | r
      · right; left
        simp [effectStep, h, hh, extractTier]
      · have hr := subscriptionQuery_head_latest b.subscriptions u.id r hh
        by_cases ht : r.tier = ""
        · right; left
          simp [effectStep, h, hh, extractTier, ht]
        · right; right
          simp only [effectStep, h, hh, extractTier, Option.getD_some, List.mem_map]
          refine ⟨r, hr.1, ?_⟩
          simp [ht]

end SubTier

namespace SubTier

/-! ### C8 — loading cleared unconditionally -/

/-- C8: regardless of the identity and of which success or failure path a
resolution attempt takes, the `finally` step leaves the loading flag
false when the attempt finishes. -/
theorem c8_loading_cleared (u : Option User) (b : Backend) (s : HookState) :
    (effectStep u b s).1.loading = false := by
  cases u with
  | none => rfl
  | some u =>
    unfold effectStep
    rfl

/-! ### C9 — the diagnostic trace only grows -/

/-- The one-snapshot history (exact match hit) is a prefix chain. -/
theorem chainHist1 : List.Chain' (fun a c => a <+: c) [stages1] := by
  simp

/-- The two-snapshot history (case-insensitive hit) is a prefix chain. -/
theorem chainHist2 : List.Chain' (fun a c => a <+: c) [stages1, stages12] := by
  simp only [List.chain'_cons, List.chain'_singleton, and_true]
  exact ⟨_, rfl⟩

/-- The three-snapshot history (RPC hit) is a prefix chain. -/
theorem chainHist3 : List.Chain' (fun a c => a <+: c) [stages1, stages12, stages123] := by
  simp only [List.chain'_cons, List.chain'_singleton, and_true]
  exact ⟨⟨_, rfl⟩, ⟨_, rfl⟩⟩

/-- The five-snapshot history of a failed insert is a prefix chain. -/
theorem chainHist5fail : List.Chain' (fun a c => a <+: c)
    [stages1, stages12, stages123, stages1234, stages1234fail] := by
  simp only [List.chain'_cons, List.chain'_singleton, and_true]
  exact ⟨⟨_, rfl⟩, ⟨_, rfl⟩, ⟨_, rfl⟩,
    ⟨_, rfl⟩⟩

/-- The five-snapshot history of a successful insert is a prefix chain. -/
theorem chainHist5ok : List.Chain' (fun a c => a <+: c)
    [stages1, stages12, stages123, stages1234, stages1234ok] := by
  simp only [List.chain'_cons, List.chain'_singleton, and_true]
  exact ⟨⟨_, rfl⟩, ⟨_, rfl⟩, ⟨_, rfl⟩,
    ⟨_, rfl⟩⟩

/-- C9: within a single resolution the successive snapshots of
`profileLookupStages` form a chain in the list-prefix order (every update
appends to the existing list), and the published diagnostics — on the
failure paths too — carry the last snapshot, preserving every previously
recorded stage. -/
theorem c9_stage_trace_monotone (u : User) (b : Backend) :
    List.Chain' (fun a c => a <+: c) (resolveSubscriptionTier u b).stageHistory
    ∧ (resolveSubscriptionTier u b).stageHistory.getLast?
        = some (resolveSubscriptionTier u b).diagnostics.profileLookupStages := by
  unfold resolveSubscriptionTier subscriptionLookup
  cases h1 : b.exactMatchResp.data <;> cases h2 : ciProfile b.ciMatchResp.data <;>
    cases h3 : b.rpcResp.data <;> cases h4 : b.insertResp.error <;>
    cases h5 : b.subQueryError <;>
    simp only [h1, h2, h3, h4, h5] <;>
    refine ⟨?_, by decide⟩ <;>
    first
      | exact chainHist1
      | exact chainHist2
      | exact chainHist3
      | exact chainHist5fail
      | exact chainHist5ok

/-! ### C10 — errors of stages 1–3 are silently discarded -/

/-- C10: the resolver reads only the `data` field of the exact-match,
case-insensitive and RPC responses: replacing their `error` fields by
anything at all leaves the entire run — outcome, diagnostics, queries and
stage trace — unchanged.  A failing query in stages 1–3 is therefore
indistinguishable from one that found no row: the resolver falls through
to the next stage and records no error for it. -/
theorem c10_stage_errors_ignored (u : User) (b : Backend)
    (e1 e2 e3 : Option QueryError) :
    resolveSubscriptionTier u
      { b with
        exactMatchResp := { data := b.exactMatchResp.data, error := e1 }
        ciMatchResp := { data := b.ciMatchResp.data, error := e2 }
        rpcResp := { data := b.rpcResp.data, error := e3 } }
      = resolveSubscriptionTier u b := rfl

end SubTier
